import Mathlib

/-!
# Verification of the jsonresume MCP server's dispatch and session bridge

A shallow embedding, in Lean 4, of the protocol-dispatch and dual-transport
session code of the jsonresume MCP server.  The repository holds three
revisions of the same server:

* `src/index.ts` — the Express/SSE revision ("V1" below): its tool list
  (lines 72–116), its `CallToolRequestSchema` handler (lines 231–250), its
  module-level `transport` variable shared by `GET /sse` and
  `POST /messages` (lines 262–285).
* `src/unnamed/part_000`, first half ("first revision"): a Hono server whose
  `GET /sse` connects the transport *before* constructing the `ReadableStream`
  (lines 294–348).
* `src/unnamed/part_000`, second half ("second revision", "V2"): the Hono
  server with tool-name validation in the call handler (lines 562–639), the
  `activeTransports` session map with `POST /message` (lines 673–738) and the
  `GET /sse` handler that patches the response adapter before connecting
  (lines 744–865).

External collaborators (the GitHub/OpenAI services, and the vendored
`typescript-sdk`) are not under `src/`; where their behaviour decides a
claim they are modelled from the spec, and the definition's doc comment
says so.
-/

/-- A JSON value, as produced and consumed by the server's handlers.
Objects keep their fields as an ordered association list, matching the
insertion order of the TypeScript object literals in the source. -/
inductive Json where
  | null : Json
  | bool (b : Bool) : Json
  | num (n : Int) : Json
  | str (s : String) : Json
  | arr (elems : List Json) : Json
  | obj (fields : List (String × Json)) : Json
deriving Repr

/-- JavaScript property access `o.k` on an object: the first binding of the
key, `undefined` (here `Json.null`) when absent or not an object. -/
def jsonGet (j : Json) (key : String) : Json :=
  match j with
  | Json.obj fields =>
    match fields.lookup key with
    | some v => v
    | none => Json.null
  | _ => Json.null

/-- JavaScript template-literal display of a value (only the cases the
source can reach: `Hello, ${input.name}!` with a missing or primitive
`name`). -/
def jsDisplay : Json → String
  | Json.null => "null"
  | Json.bool b => if b then "true" else "false"
  | Json.num n => toString n
  | Json.str s => s
  | Json.arr _ => ""
  | Json.obj _ => "[object Object]"

/-- One property of a JSON-schema object, as written in the source's
`inputSchema.properties` literals. -/
structure SchemaProperty where
  name : String
  type : String
  description : String
deriving DecidableEq, Repr

/-- The `inputSchema` field of a tool: `{type: "object", properties, required}`. -/
structure InputSchema where
  type : String
  properties : List SchemaProperty
  required : List String
deriving DecidableEq, Repr

/-- A tool descriptor, `src/src/tools.ts` and `src/index.ts` lines 72–110. -/
structure Tool where
  name : String
  description : String
  inputSchema : InputSchema
deriving DecidableEq, Repr

/-- `ANALYZE_CODEBASE_TOOL`, `src/src/tools.ts` lines 4–17 (identical to
`src/index.ts` lines 72–85). -/
def ANALYZE_CODEBASE_TOOL : Tool :=
  { name := "github_analyze_codebase"
  , description := "This is a tool from the github MCP server.\nAnalyzes the current codebase and returns information about technologies, languages, and recent commits"
  , inputSchema :=
    { type := "object"
    , properties :=
      [ { name := "directory"
        , type := "string"
        , description := "The directory to analyze. If not provided, uses current working directory." } ]
    , required := [] } }

/-- `CHECK_RESUME_TOOL`, `src/src/tools.ts` lines 19–27 (identical to
`src/index.ts` lines 87–95). -/
def CHECK_RESUME_TOOL : Tool :=
  { name := "github_check_resume"
  , description := "This is a tool from the github MCP server.\nChecks if a GitHub user has a JSON Resume and returns its information"
  , inputSchema :=
    { type := "object"
    , properties := []
    , required := [] } }

/-- `ENHANCE_RESUME_WITH_PROJECT_TOOL`, `src/src/tools.ts` lines 29–42
(identical to `src/index.ts` lines 97–110). -/
def ENHANCE_RESUME_WITH_PROJECT_TOOL : Tool :=
  { name := "github_enhance_resume_with_project"
  , description := "This is a tool from the github MCP server.\nEnhances a GitHub user\x27s JSON Resume with information about their current project"
  , inputSchema :=
    { type := "object"
    , properties :=
      [ { name := "directory"
        , type := "string"
        , description := "The directory of the project to analyze. If not provided, uses current working directory." } ]
    , required := [] } }

/-- The tool registry, `src/src/tools.ts` lines 45–49 (identical to
`src/index.ts` lines 112–116). -/
def tools : List Tool :=
  [ ANALYZE_CODEBASE_TOOL
  , CHECK_RESUME_TOOL
  , ENHANCE_RESUME_WITH_PROJECT_TOOL ]

/-- The `list_tools` handler, `src/index.ts` lines 118–120 (identical to
`src/unnamed/part_000` lines 73/449): returns the registry verbatim. -/
def listToolsResult : List Tool := tools

/-- A resume fetched from the gist registry: its JSON object fields,
possibly including the internal `_gistId` key. -/
abbrev Resume := List (String × Json)

/-- What `enhanceWithCurrentProject` resolves to (destructured at
`src/index.ts` line 206): the updated resume plus report fields. -/
structure EnhanceOutcome where
  updatedResume : Resume
  changes : Json
  summary : Json
  userMessage : Json
  resumeLink : Option String

/-- The external collaborators (GitHub/OpenAI services, out of the core's
scope per spec section 1): each awaited call is modelled by its outcome, a
value or a thrown failure's message. -/
structure Collaborators where
  getResumeFromGists : Except String (Option Resume)
  getUserProfile : Except String Json
  createSampleResume : Except String Resume
  analyze : Option String → Except String Json
  enhanceWithCurrentProject : Resume → Json → String → Except String EnhanceOutcome
  updateResume : Resume → Except String Resume
  githubUsername : String

/-- JavaScript `a || b` on an optional string: `undefined` and the empty
string are falsy. -/
def jsOrStr (a : Option String) (b : String) : String :=
  match a with
  | some s => if s = "" then b else s
  | none => b

/-- `doHello`, `src/index.ts` lines 122–126. -/
structure HelloResult where
  message : String
deriving DecidableEq, Repr

def doHello (name : String) : HelloResult :=
  { message := "Hello, " ++ name ++ "!" }

def HelloResult.toJson (h : HelloResult) : Json :=
  Json.obj [("message", Json.str h.message)]

/-- `analyzeCodebase`, `src/index.ts` lines 128–149: run the analyzer for
the requested directory (or the process-wide one) and wrap its result; a
failure is logged and rethrown. -/
def analyzeCodebase (env : Collaborators) (directory : Option String) :
    Except String Json := do
  let analysis ← env.analyze directory
  pure (Json.obj
    [ ("message", Json.str "Codebase analysis completed successfully")
    , ("analysis", analysis)
    , ("summary", jsonGet analysis "summary") ])

/-- The rest-destructuring `const { _gistId, ...cleanResume } = resume` of
`src/index.ts` line 167. -/
def stripGistId (resume : Resume) : Resume :=
  resume.filter (fun field => field.1 ≠ "_gistId")

/-- `checkResume`, `src/index.ts` lines 151–179 (identical in both
`part_000` revisions): fetch the resume from the gists; report
not-found, or the cleaned resume with its registry URL. -/
def checkResume (env : Collaborators) : Except String Json := do
  let fetched ← env.getResumeFromGists
  match fetched with
  | none =>
    pure (Json.obj
      [ ("message", Json.str "No resume found")
      , ("exists", Json.bool false)
      , ("resumeUrl", Json.null) ])
  | some resume =>
    pure (Json.obj
      [ ("message", Json.str "Resume found")
      , ("exists", Json.bool true)
      , ("resumeUrl", Json.str ("https://registry.jsonresume.org/" ++ env.githubUsername))
      , ("resume", Json.obj (stripGistId resume)) ])

/-- `enhanceResumeWithProject`, `src/index.ts` lines 181–229: fetch or
create a resume, analyze the codebase, enhance, and push the update. -/
def enhanceResumeWithProject (env : Collaborators) (directory : Option String) :
    Except String Json := do
  let fetched ← env.getResumeFromGists
  let resume ← match fetched with
    | none => do
        let _userProfile ← env.getUserProfile
        env.createSampleResume
    | some r => pure r
  let codebaseAnalysis ← env.analyze directory
  let out ← env.enhanceWithCurrentProject resume codebaseAnalysis env.githubUsername
  let _finalResume ← env.updateResume out.updatedResume
  pure (Json.obj
    [ ("message", Json.str "Resume enhanced with current project successfully")
    , ("changes", out.changes)
    , ("summary", out.summary)
    , ("userMessage", out.userMessage)
    , ("resumeUrl", Json.str (jsOrStr out.resumeLink ("https://registry.jsonresume.org/" ++ env.githubUsername)))
    , ("projectName", jsonGet codebaseAnalysis "repoName")
    , ("warning", Json.str "⚠️ Note: Automatic resume updates might have modified your resume in ways that don\x27t match your preferences. You can revert to a previous version through your GitHub Gist revision history if needed.") ])

/-- `input.name` as the hello branch reads it: a missing key interpolates
as the string `undefined` in the template literal. -/
def getStrField (args : List (String × Json)) (key : String) : String :=
  match args.lookup key with
  | some v => jsDisplay v
  | none => "undefined"

/-- `input.directory` as the analyze/enhance branches read it. -/
def getDirectory (args : List (String × Json)) : Option String :=
  match args.lookup "directory" with
  | some (Json.str s) => some s
  | _ => none

/-- The protocol error codes the source uses (`ErrorCode.MethodNotFound`
from the SDK types; `internalError` stands for the SDK's wrapping of a
non-Mcp thrown failure). -/
inductive ErrorCode where
  | methodNotFound
  | internalError
deriving DecidableEq, Repr

/-- What the V1 call handler does besides returning a value: throw an
`McpError` (its unknown-tool branch, `src/index.ts` line 249) or rethrow a
collaborator failure. -/
inductive HandlerFailure where
  | mcp (code : ErrorCode) (message : String)
  | thrown (message : String)

/-- The `CallToolRequestSchema` handler of `src/index.ts` lines 231–250:
a `github_hello_tool` branch (absent from `tools`), the three registry
tools, and a thrown `McpError` naming any other tool. -/
def callToolV1 (env : Collaborators) (name : String) (args : List (String × Json)) :
    Except HandlerFailure Json :=
  if name = "github_hello_tool" then
    Except.ok (doHello (getStrField args "name")).toJson
  else if name = "github_analyze_codebase" then
    (analyzeCodebase env (getDirectory args)).mapError HandlerFailure.thrown
  else if name = "github_check_resume" then
    (checkResume env).mapError HandlerFailure.thrown
  else if name = "github_enhance_resume_with_project" then
    (enhanceResumeWithProject env (getDirectory args)).mapError HandlerFailure.thrown
  else
    Except.error (HandlerFailure.mcp ErrorCode.methodNotFound ("Unknown tool: " ++ name))

/-- A compact serialization of a JSON value, standing in for the source's
`JSON.stringify(result, null, 2)` (the indentation whitespace of the
pretty-printer is abstracted away; no claim inspects this text). -/
def Json.render : Json → String
  | Json.null => "null"
  | Json.bool b => if b then "true" else "false"
  | Json.num n => toString n
  | Json.str s => "\"" ++ s ++ "\""
  | Json.arr elems =>
    "[" ++ String.intercalate "," (elems.attach.map (fun e => Json.render e.1)) ++ "]"
  | Json.obj fields =>
    "\x7b" ++ String.intercalate ","
      (fields.attach.map (fun f => "\"" ++ f.1.1 ++ "\":" ++ Json.render f.1.2)) ++ "\x7d"
decreasing_by
  · have := List.sizeOf_lt_of_mem e.2
    simp at this ⊢
    omega
  · obtain ⟨⟨a, b⟩, hf⟩ := f
    have := List.sizeOf_lt_of_mem hf
    simp at this ⊢
    omega

/-- One `content` block of a V2 tool-call result. -/
structure ToolContent where
  type : String
  text : String
deriving DecidableEq, Repr

/-- The V2 handler's return shape: `content` blocks plus an `isError` flag
(the source's success literals omit it, i.e. `false`). -/
structure ToolCallResult where
  isError : Bool := false
  content : List ToolContent
deriving DecidableEq, Repr

/-- The `CallToolRequestSchema` handler of the second `part_000` revision,
lines 562–639: validate the tool name against `tools`, answering a
text-content `isError` result for an unknown name; dispatch the known
branches, wrapping each result as stringified text; the surrounding
`try/catch` turns any thrown failure into an `Error executing tool`
result, modelled here per branch. -/
def callToolV2 (env : Collaborators) (name : String) (args : List (String × Json)) :
    ToolCallResult :=
  if (tools.any fun t => t.name = name) = false then
    { isError := true
    , content := [{ type := "text", text := "Error: Unknown tool \x27" ++ name ++ "\x27" }] }
  else if name = "github_hello_tool" then
    { content := [{ type := "text", text := (doHello (getStrField args "name")).message }] }
  else if name = ANALYZE_CODEBASE_TOOL.name then
    match analyzeCodebase env (getDirectory args) with
    | Except.ok result => { content := [{ type := "text", text := result.render }] }
    | Except.error e =>
      { isError := true, content := [{ type := "text", text := "Error executing tool: " ++ e }] }
  else if name = CHECK_RESUME_TOOL.name then
    match checkResume env with
    | Except.ok result => { content := [{ type := "text", text := result.render }] }
    | Except.error e =>
      { isError := true, content := [{ type := "text", text := "Error executing tool: " ++ e }] }
  else if name = ENHANCE_RESUME_WITH_PROJECT_TOOL.name then
    match enhanceResumeWithProject env (getDirectory args) with
    | Except.ok result => { content := [{ type := "text", text := result.render }] }
    | Except.error e =>
      { isError := true, content := [{ type := "text", text := "Error executing tool: " ++ e }] }
  else
    { isError := true
    , content := [{ type := "text", text := "Error: Tool \x27" ++ name ++ "\x27 implementation not found" }] }

/-- A request envelope (spec section 3): correlation id, method, and for a
tool call the tool name and arguments. -/
structure RequestEnvelope where
  id : Nat
  method : String
  toolName : String
  arguments : List (String × Json)

/-- A response envelope carries exactly one of a result or a protocol
error (spec section 3). -/
inductive ResponseBody where
  | result (v : Json)
  | protocolError (code : ErrorCode) (message : String)

structure ResponseEnvelope where
  id : Nat
  body : ResponseBody

def InputSchema.toJson (s : InputSchema) : Json :=
  Json.obj
    [ ("type", Json.str s.type)
    , ("properties", Json.obj (s.properties.map fun p =>
        (p.name, Json.obj [("type", Json.str p.type), ("description", Json.str p.description)])))
    , ("required", Json.arr (s.required.map Json.str)) ]

def Tool.toJson (t : Tool) : Json :=
  Json.obj
    [ ("name", Json.str t.name)
    , ("description", Json.str t.description)
    , ("inputSchema", t.inputSchema.toJson) ]

/-- Modelled from the spec: the protocol layer around the V1 handlers (the
SDK Server/Protocol classes, vendored outside `src/`).  Per spec section
4.2 it routes `list_tools` and `call_tool`, answers any other method with
MethodNotFound, converts a thrown `McpError` or handler failure into a
protocol-error envelope instead of letting it escape uncaught, and echoes
the request id unchanged. -/
def handleV1 (env : Collaborators) (req : RequestEnvelope) : ResponseEnvelope :=
  if req.method = "list_tools" then
    { id := req.id
    , body := ResponseBody.result (Json.obj [("tools", Json.arr (listToolsResult.map Tool.toJson))]) }
  else if req.method = "call_tool" then
    match callToolV1 env req.toolName req.arguments with
    | Except.ok v => { id := req.id, body := ResponseBody.result v }
    | Except.error (HandlerFailure.mcp code msg) =>
      { id := req.id, body := ResponseBody.protocolError code msg }
    | Except.error (HandlerFailure.thrown msg) =>
      { id := req.id, body := ResponseBody.protocolError ErrorCode.internalError msg }
  else
    { id := req.id
    , body := ResponseBody.protocolError ErrorCode.methodNotFound ("Method not found: " ++ req.method) }

/-- The V1 server over a whole sequence of requests: the dispatcher keeps
no cross-request state, so each request is handled by the same pure
function — handling one request cannot stop the service of later ones. -/
def serveV1 (env : Collaborators) (reqs : List RequestEnvelope) : List ResponseEnvelope :=
  reqs.map (handleV1 env)

/-- A chunk enqueued on the SSE stream.  Every string the `GET /sse`
handlers write or enqueue has one of these shapes (the raw text in the
source: an `event: endpoint` line with a data URL, the fixed
`event: connected` chunk, an `event: ping` chunk with `Date.now()`, or a
`data:` chunk with a stringified protocol message). -/
inductive SseChunk where
  | endpointEvent (url : String)
  | connectedEvent
  | pingEvent (timestamp : Nat)
  | messageData (payload : String)
deriving DecidableEq, Repr

def SseChunk.isEndpointEvent : SseChunk → Bool
  | SseChunk.endpointEvent _ => true
  | _ => false

def SseChunk.isPingOrMessage : SseChunk → Bool
  | SseChunk.pingEvent _ => true
  | SseChunk.messageData _ => true
  | _ => false

/-- The `honoResponseAdapter` of the `GET /sse` handlers (`part_000`
lines 249–292 and 751–777) together with the `ReadableStream` controller
it is bridged to: `data` is the `_data` buffer of the adapter,
`delivered` the sequence enqueued to the controller (what the client
receives), `patched` whether the stream start callback has already
replaced `adapter.write` with the relaying version. -/
structure BridgeState where
  data : List SseChunk
  headersSent : Bool
  patched : Bool
  delivered : List SseChunk
deriving DecidableEq, Repr

def initialBridge : BridgeState :=
  { data := [], headersSent := false, patched := false, delivered := [] }

/-- `adapter.write`: the original method (lines 265–269 and 759–763) only
records the chunk in `_data` and returns `true`; the patched method
(lines 314–318 and 792–796) also enqueues the chunk to the stream
controller before delegating to the original. -/
def BridgeState.write (s : BridgeState) (chunk : SseChunk) : BridgeState :=
  if s.patched then
    { s with delivered := s.delivered ++ [chunk], data := s.data ++ [chunk] }
  else
    { s with data := s.data ++ [chunk] }

/-- `controller.enqueue` called directly by the handler code. -/
def BridgeState.enqueue (s : BridgeState) (chunk : SseChunk) : BridgeState :=
  { s with delivered := s.delivered ++ [chunk] }

/-- A sequence of `adapter.write` calls. -/
def BridgeState.writeAll (s : BridgeState) (chunks : List SseChunk) : BridgeState :=
  chunks.foldl BridgeState.write s

/-- Modelled from the spec: `SSEServerTransport.start()` of the vendored
SDK (not under `src/`) — on connect it generates the fresh session id,
marks the headers sent, and writes the initial `endpoint` event whose
data is the relative message-endpoint URL carrying the session id as a
query parameter (spec sections 4.4 and 6), all through the response
object the transport was constructed with. -/
def transportStart (endpointPath : String) (sessionId : String) (s : BridgeState) :
    BridgeState :=
  BridgeState.write { s with headersSent := true }
    (SseChunk.endpointEvent (endpointPath ++ "?sessionId=" ++ sessionId))

/-- The first-revision `GET /sse` handler (`part_000` lines 239–348) up to
the end of its `ReadableStream` start callback: `await server.connect`
runs the SDK transport start — writing the endpoint event through the
NOT-yet-patched adapter — before the stream is even constructed; the
start callback then enqueues the `connected` event and only afterwards
patches `adapter.write`. -/
def sseSetupRev1 (sessionId : String) : BridgeState :=
  let s1 := transportStart "/mcp" sessionId initialBridge
  let s2 := s1.enqueue SseChunk.connectedEvent
  { s2 with patched := true }

/-- The second-revision `GET /sse` handler (`part_000` lines 744–865) up
to the point where the connect promise callback has run: the start
callback first patches `adapter.write`, then calls
`server.connect(transport)`, whose synchronous prefix runs the SDK
transport start — so the endpoint event goes through the already patched
adapter — and the `.then` callback then registers the session and
enqueues the own `endpoint` and `connected` events of the handler.  On the single-threaded event loop this microtask runs before
any timer or later request, and the first keep-alive ping can only fire
15 seconds later, so every later ping or message-data chunk lands after
these. -/
def sseSetupRev2 (sessionId : String) : BridgeState :=
  let s1 := { initialBridge with patched := true }
  let s2 := transportStart "/message" sessionId s1
  let s3 := s2.enqueue (SseChunk.endpointEvent ("/message?sessionId=" ++ sessionId))
  s3.enqueue SseChunk.connectedEvent

/-- The full event stream a client of the first revision receives: the
setup deliveries followed by the session-lifetime chunks. -/
def rev1Stream (sessionId : String) (later : List SseChunk) : List SseChunk :=
  (sseSetupRev1 sessionId).delivered ++ later

/-- The full event stream a client of the second revision receives. -/
def rev2Stream (sessionId : String) (later : List SseChunk) : List SseChunk :=
  (sseSetupRev2 sessionId).delivered ++ later

/-- The session-map events of the second revision: a `GET /sse`
registering a freshly issued transport (`activeTransports.set`,
`part_000` line 812) and a client abort tearing one down
(`activeTransports.delete`, line 842). -/
inductive SessionEvent where
  | sseOpen
  | abortSignal (sid : Nat)
deriving DecidableEq, Repr

/-- The session registry.  Modelled from the spec for the id supply: the
session id is generated by the SDK transport (not under `src/`), and the
spec requires ids "unique for the lifetime of the process" with "a
destroyed session id ... never reused" (spec section 3), so ids are drawn
from a never-repeating supply, represented by the counter `nextId`.
`issued` records every id ever issued, `active` the keys of the
`activeTransports` map, `closed` every id whose session was torn down. -/
structure ManagerState where
  nextId : Nat
  issued : List Nat
  active : List Nat
  closed : List Nat
deriving DecidableEq, Repr

def initialManager : ManagerState :=
  { nextId := 0, issued := [], active := [], closed := [] }

/-- One session-map transition: `sseOpen` issues a fresh id and registers
it; `abortSignal sid` deletes the entry and records the teardown — a
`Map.delete` of an absent key is a no-op, so an abort for an id that is
not registered (already torn down, or never issued) leaves the map as it
was and tears nothing down. -/
def managerStep (s : ManagerState) : SessionEvent → ManagerState
  | SessionEvent.sseOpen =>
    { s with
      nextId := s.nextId + 1
      issued := s.issued ++ [s.nextId]
      active := s.active ++ [s.nextId] }
  | SessionEvent.abortSignal sid =>
    if sid ∈ s.active then
      { s with active := s.active.erase sid, closed := s.closed ++ [sid] }
    else s

def runManager (events : List SessionEvent) : ManagerState :=
  events.foldl managerStep initialManager

/-- The `POST /message` lookup, `part_000` lines 684–687: a session id is
matched only when it is a key of `activeTransports`. -/
def lookupSession (s : ManagerState) (sid : Nat) : Bool :=
  decide (sid ∈ s.active)

/-- The invariant the session registry maintains: issued ids are pairwise
distinct and below the counter, the map keys are distinct issued ids, and
a torn-down id is never a key of the map again. -/
def managerInv (s : ManagerState) : Prop :=
  s.issued.Nodup ∧ s.active.Nodup ∧
  (∀ i ∈ s.issued, i < s.nextId) ∧
  (∀ i ∈ s.active, i ∈ s.issued) ∧
  (∀ i ∈ s.closed, i < s.nextId) ∧
  (∀ i ∈ s.closed, i ∉ s.active)

/-- The readable-stream controller as the teardown path touches it. -/
inductive StreamCtrl where
  | readable
  | errored
  | closed
deriving DecidableEq, Repr

/-- `controller.error(e)`: per the streams semantics of the underlying
delivery primitive, erroring a stream that is no longer readable is a
no-op — it does not throw. -/
def errorCtrl : StreamCtrl → StreamCtrl
  | StreamCtrl.readable => StreamCtrl.errored
  | c => c

/-- The per-connection state the second-revision abort handler can
reach: the keep-alive interval, the session
map, the stream controller its `onerror` errors, and the session id
captured once connect resolved. -/
structure SseSessionState where
  pingActive : Bool
  activeMap : List Nat
  ctrl : StreamCtrl
  sessionId : Option Nat
deriving DecidableEq, Repr

/-- The abort handler, `part_000` lines 837–854: clear the keep-alive
interval (`clearInterval` of an already-cleared handle is a no-op), and
if the session id was assigned, delete the map entry and fire the
transport `onerror` — which errors the stream controller; the
surrounding `try/catch` swallows any failure of that notification, so
the handler itself never throws. -/
def teardown (s : SseSessionState) : SseSessionState :=
  let s1 := { s with pingActive := false }
  match s1.sessionId with
  | none => s1
  | some sid =>
    let s2 := { s1 with activeMap := s1.activeMap.erase sid }
    { s2 with ctrl := errorCtrl s2.ctrl }

/-- One firing of the 15-second `setInterval` callback (`part_000` lines
826–834): a ping chunk is emitted only while the interval is live; after
`clearInterval` the callback never runs again. -/
def pingTick (s : SseSessionState) (now : Nat) : SseSessionState × Option SseChunk :=
  if s.pingActive then (s, some (SseChunk.pingEvent now)) else (s, none)

/-- A `POST /message` request as the handler reads it: the `sessionId`
query parameter, and the parsed JSON body — `none` models
`c.req.json()` throwing on a malformed body. -/
structure PostRequest where
  sessionId : Option String
  body : Option Json

/-- `body.method === "initialize"`. -/
def isInitialize (body : Json) : Bool :=
  match jsonGet body "method" with
  | Json.str s => s = "initialize"
  | _ => false

/-- The response of the `POST /message` handler: HTTP status, response
body, and the session map afterwards (the handler contains no map
mutation, only the `get` lookup, so the map passes through unchanged). -/
structure PostOutcome where
  status : Nat
  body : Json
  mapAfter : List String

/-- The `POST /message` handler of the second revision, `part_000` lines
673–738: 400 when no `sessionId` query parameter came; inside the
`try/catch`, parse the body (a parse failure is caught and answered with
500 carrying the stringified error, abstracted here as a fixed text),
look the session up — 404 on a miss — then either answer the
`initialize` method directly or hand the body to the transport
(`handlePostMessage`, whose failure the catch also turns into a 500),
acknowledging with `status: ok` and 200. -/
def postMessage (activeMap : List String) (req : PostRequest) (handleOk : Bool) :
    PostOutcome :=
  match req.sessionId with
  | none =>
    { status := 400
    , body := Json.obj [("error", Json.str "No session ID provided")]
    , mapAfter := activeMap }
  | some sid =>
    match req.body with
    | none =>
      { status := 500
      , body := Json.obj [("error", Json.str "body parse failure")]
      , mapAfter := activeMap }
    | some body =>
      if sid ∈ activeMap then
        if isInitialize body then
          { status := 200
          , body := Json.obj [("status", Json.str "ok")]
          , mapAfter := activeMap }
        else if handleOk then
          { status := 200
          , body := Json.obj [("status", Json.str "ok")]
          , mapAfter := activeMap }
        else
          { status := 500
          , body := Json.obj [("error", Json.str "handler failure")]
          , mapAfter := activeMap }
      else
        { status := 404
        , body := Json.obj [("error", Json.str "Invalid session ID")]
        , mapAfter := activeMap }

/-- The module-level `transport` variable of `src/index.ts` line 266,
shared by every route handler of the Express revision; transports are
identified by an opaque token. -/
structure V1HttpState where
  transport : Option Nat
deriving DecidableEq, Repr

/-- `GET /sse` of `src/index.ts` lines 272–276: unconditionally overwrite
the module-level variable with the transport of the new connection. -/
def v1SseOpen (_s : V1HttpState) (t : Nat) : V1HttpState :=
  { transport := some t }

/-- A sequence of `GET /sse` connections against the Express revision. -/
def v1Run (opens : List Nat) : V1HttpState :=
  opens.foldl v1SseOpen { transport := none }

/-- `POST /messages` of `src/index.ts` lines 278–285: 400 when no
transport was ever created; otherwise the message — whichever client
sent it (the `sender` argument is never consulted) — is handed to the
module-level `transport`, i.e. to the most recently opened SSE
connection.  Returns the status and the transport the message was
delivered to. -/
def v1PostMessages (s : V1HttpState) (_sender : Nat) : Nat × Option Nat :=
  match s.transport with
  | none => (400, none)
  | some t => (200, some t)

/-- A concrete collaborator environment, used to evaluate the handlers on
closed inputs: the gist registry holds no resume, the analyzer and the
enhancement pipeline succeed. -/
def sampleEnv : Collaborators :=
  { getResumeFromGists := Except.ok none
  , getUserProfile := Except.ok (Json.obj [])
  , createSampleResume := Except.ok ([] : Resume)
  , analyze := fun _ =>
      Except.ok (Json.obj [("summary", Json.str "ok"), ("repoName", Json.str "demo")])
  , enhanceWithCurrentProject := fun r _ _ =>
      Except.ok
        { updatedResume := r, changes := Json.null, summary := Json.null
        , userMessage := Json.null, resumeLink := none }
  , updateResume := fun r => Except.ok r
  , githubUsername := "octocat" }

/-! ## Supporting lemmas -/

theorem managerInv_init : managerInv initialManager := by
  simp [managerInv, initialManager]

theorem managerInv_step (s : ManagerState) (e : SessionEvent) (h : managerInv s) :
    managerInv (managerStep s e) := by
  obtain ⟨hIss, hAct, hLt, hSub, hClt, hCla⟩ := h
  cases e with
  | sseOpen =>
    refine ⟨?_, ?_, ?_, ?_, ?_, ?_⟩
    · simp only [managerStep]
      rw [List.nodup_append]
      refine ⟨hIss, List.nodup_singleton _, ?_⟩
      intro a ha hb
      rw [List.mem_singleton] at hb
      subst hb
      exact absurd (hLt _ ha) (lt_irrefl _)
    · simp only [managerStep]
      rw [List.nodup_append]
      refine ⟨hAct, List.nodup_singleton _, ?_⟩
      intro a ha hb
      rw [List.mem_singleton] at hb
      subst hb
      exact absurd (hLt _ (hSub _ ha)) (lt_irrefl _)
    · simp only [managerStep]
      intro i hi
      rcases List.mem_append.mp hi with hi | hi
      · exact Nat.lt_succ_of_lt (hLt i hi)
      · rw [List.mem_singleton] at hi
        subst hi
        exact Nat.lt_succ_self _
    · simp only [managerStep]
      intro i hi
      rcases List.mem_append.mp hi with hi | hi
      · exact List.mem_append_left _ (hSub i hi)
      · exact List.mem_append_right _ hi
    · simp only [managerStep]
      intro i hi
      exact Nat.lt_succ_of_lt (hClt i hi)
    · simp only [managerStep]
      intro i hi hmem
      rcases List.mem_append.mp hmem with hm | hm
      · exact hCla i hi hm
      · rw [List.mem_singleton] at hm
        subst hm
        exact absurd (hClt _ hi) (lt_irrefl _)
  | abortSignal sid =>
    simp only [managerStep]
    split
    · next hmem =>
      refine ⟨hIss, hAct.erase sid, hLt, ?_, ?_, ?_⟩
      · intro i hi
        exact hSub i (List.mem_of_mem_erase hi)
      · intro i hi
        rcases List.mem_append.mp hi with hm | hm
        · exact hClt i hm
        · rw [List.mem_singleton] at hm
          subst hm
          exact hLt i (hSub i hmem)
      · intro i hi hact
        rcases List.mem_append.mp hi with hm | hm
        · exact hCla i hm (List.mem_of_mem_erase hact)
        · rw [List.mem_singleton] at hm
          subst hm
          exact hAct.not_mem_erase hact
    · exact ⟨hIss, hAct, hLt, hSub, hClt, hCla⟩

theorem managerInv_foldl (l : List SessionEvent) (s : ManagerState) (h : managerInv s) :
    managerInv (l.foldl managerStep s) := by
  induction l generalizing s with
  | nil => exact h
  | cons e l ih => exact ih _ (managerInv_step s e h)

theorem mem_closed_foldl (l : List SessionEvent) (s : ManagerState) (sid : Nat)
    (h : sid ∈ s.closed) : sid ∈ (l.foldl managerStep s).closed := by
  induction l generalizing s with
  | nil => exact h
  | cons e l ih =>
    refine ih _ ?_
    cases e with
    | sseOpen => exact h
    | abortSignal a =>
      simp only [managerStep]
      split
      · exact List.mem_append_left _ h
      · exact h

/-! ## The claims -/

/-- C7: the `list_tools` response lists exactly the three tools
`github_analyze_codebase`, `github_check_resume` and
`github_enhance_resume_with_project`, in that stable order, each an
object schema — an optional `directory` string as the only property of
the first and third, no properties for the second, and an empty
`required` list for all three. -/
theorem listTools_exact :
    listToolsResult.map Tool.name =
      ["github_analyze_codebase", "github_check_resume", "github_enhance_resume_with_project"] ∧
    listToolsResult.map (fun t => t.inputSchema.type) = ["object", "object", "object"] ∧
    listToolsResult.map (fun t => t.inputSchema.properties.map SchemaProperty.name) =
      [["directory"], [], ["directory"]] ∧
    listToolsResult.map (fun t => t.inputSchema.properties.map SchemaProperty.type) =
      [["string"], [], ["string"]] ∧
    listToolsResult.map (fun t => t.inputSchema.required) = [[], [], []] := by
  decide

/-- C8: whenever the upstream gist fetch reports that no resume exists
(`getResumeFromGists` resolves to `null`), `checkResume` returns exactly
the object with message `No resume found`, `exists` false and a null
`resumeUrl`. -/
theorem checkResume_noResume (env : Collaborators)
    (h : env.getResumeFromGists = Except.ok none) :
    checkResume env = Except.ok (Json.obj
      [ ("message", Json.str "No resume found")
      , ("exists", Json.bool false)
      , ("resumeUrl", Json.null) ]) := by
  simp only [checkResume, h]
  rfl

theorem checkResume_noResume_witness :
    checkResume sampleEnv = Except.ok (Json.obj
      [ ("message", Json.str "No resume found")
      , ("exists", Json.bool false)
      , ("resumeUrl", Json.null) ]) :=
  checkResume_noResume sampleEnv rfl

/-- C10: the set of callable tool names differs from the advertised list:
`github_hello_tool` is absent from `tools`, yet the `src/index.ts`
handler dispatches it to `doHello` and answers
`{message: "Hello, <name>!"}`, while the revision that validates against
the tools list rejects the same request with an `isError` text result
naming the tool. -/
theorem helloTool_bypasses_registry (env : Collaborators) (callerName : String) :
    ("github_hello_tool" ∉ tools.map Tool.name) ∧
    callToolV1 env "github_hello_tool" [("name", Json.str callerName)] =
      Except.ok (Json.obj [("message", Json.str ("Hello, " ++ callerName ++ "!"))]) ∧
    (callToolV2 env "github_hello_tool" [("name", Json.str callerName)]).isError = true ∧
    (callToolV2 env "github_hello_tool" [("name", Json.str callerName)]).content =
      [{ type := "text", text := "Error: Unknown tool \x27github_hello_tool\x27" }] := by
  exact ⟨by decide, rfl, rfl, rfl⟩

/-- C1 counterexample: the claim is not true of every revision — in
`src/index.ts`, the `call_tool` request naming `github_hello_tool`, a
name absent from the registry, is answered with a structured SUCCESS
result rather than an error result naming an unknown tool. -/
theorem unknownTool_counterexample :
    ("github_hello_tool" ∉ tools.map Tool.name) ∧
    handleV1 sampleEnv
        { id := 7, method := "call_tool", toolName := "github_hello_tool"
        , arguments := [("name", Json.str "World")] } =
      { id := 7
      , body := ResponseBody.result (Json.obj [("message", Json.str "Hello, World!")]) } := by
  exact ⟨by decide, rfl⟩

/-- C1 amended: for every `call_tool` request whose tool name is not in
the registry, the second-revision dispatcher returns an `isError` result
whose text names the unknown tool, and the `src/index.ts` dispatcher —
for every such name except `github_hello_tool` — has its thrown
`McpError` converted by the protocol layer into a MethodNotFound error
envelope naming the tool; the dispatcher stays a total function of the
single request, so the serving of subsequent unrelated requests is
unaffected. -/
theorem unknownTool_error (env : Collaborators) (name : String)
    (args : List (String × Json)) (hreg : name ∉ tools.map Tool.name) :
    ((callToolV2 env name args).isError = true ∧
     (callToolV2 env name args).content =
       [{ type := "text", text := "Error: Unknown tool \x27" ++ name ++ "\x27" }]) ∧
    (name ≠ "github_hello_tool" → ∀ reqId,
      handleV1 env { id := reqId, method := "call_tool", toolName := name, arguments := args } =
        { id := reqId
        , body := ResponseBody.protocolError ErrorCode.methodNotFound ("Unknown tool: " ++ name) }) ∧
    (∀ reqId rest,
      serveV1 env ({ id := reqId, method := "call_tool", toolName := name, arguments := args } :: rest) =
        handleV1 env { id := reqId, method := "call_tool", toolName := name, arguments := args } ::
          serveV1 env rest) := by
  have hv : (tools.any fun t => t.name = name) = false := by
    apply List.any_eq_false.mpr
    intro t ht
    simp only [decide_eq_true_eq]
    exact fun hn => hreg (List.mem_map.mpr ⟨t, ht, hn⟩)
  have h1 : name ≠ "github_analyze_codebase" := by
    intro he
    exact hreg (by rw [he]; decide)
  have h2 : name ≠ "github_check_resume" := by
    intro he
    exact hreg (by rw [he]; decide)
  have h3 : name ≠ "github_enhance_resume_with_project" := by
    intro he
    exact hreg (by rw [he]; decide)
  refine ⟨?_, ?_, ?_⟩
  · constructor
    · simp [callToolV2, hv]
    · simp [callToolV2, hv]
  · intro hh reqId
    simp [handleV1, callToolV1, hh, h1, h2, h3]
  · intro reqId rest
    rfl

theorem unknownTool_error_witness :
    (callToolV2 sampleEnv "bogus_tool" []).isError = true ∧
    handleV1 sampleEnv { id := 3, method := "call_tool", toolName := "bogus_tool", arguments := [] } =
      { id := 3
      , body := ResponseBody.protocolError ErrorCode.methodNotFound "Unknown tool: bogus_tool" } := by
  have h := unknownTool_error sampleEnv "bogus_tool" [] (by decide)
  exact ⟨h.1.1, h.2.1 (by decide) 3⟩

/-- C2 (the first-revision bug, evaluated): the endpoint event the SSE
transport writes during `server.connect` — a chunk passed to the shim
before stream teardown, indeed before the `ReadableStream` start callback
has run — lands in the adapter buffer but is never enqueued to the
controller: the sequence delivered to the client is just the `connected`
event, so the written chunk is dropped. -/
theorem rev1_drops_preStart_chunk :
    (sseSetupRev1 "abc123").data = [SseChunk.endpointEvent "/mcp?sessionId=abc123"] ∧
    (sseSetupRev1 "abc123").delivered = [SseChunk.connectedEvent] := by
  decide

/-- C3 counterexample: on a first-revision `GET /sse` connection the
stream does not begin with an endpoint event — its first delivered event
is the `connected` event, and no endpoint event is ever delivered. -/
theorem sse_order_counterexample :
    (rev1Stream "s1" []).head? = some SseChunk.connectedEvent ∧
    (rev1Stream "s1" []).filter SseChunk.isEndpointEvent = [] := by
  decide

/-- C3 amended: on every second-revision `GET /sse` connection the
delivered stream begins with an `endpoint` event whose data is the
relative message URL carrying the new session id, the `connected` event
follows at index 2 (after the handler-written duplicate endpoint event),
and every `ping` or message-data chunk of the session comes strictly
later. -/
theorem sse_event_order (sid : String) (later : List SseChunk) :
    (rev2Stream sid later).head? =
      some (SseChunk.endpointEvent ("/message?sessionId=" ++ sid)) ∧
    (rev2Stream sid later).get? 2 = some SseChunk.connectedEvent ∧
    ∀ k c, (rev2Stream sid later).get? k = some c →
      SseChunk.isPingOrMessage c = true → 2 < k := by
  have hst : rev2Stream sid later =
      SseChunk.endpointEvent ("/message?sessionId=" ++ sid) ::
      SseChunk.endpointEvent ("/message?sessionId=" ++ sid) ::
      SseChunk.connectedEvent :: later := rfl
  refine ⟨by rw [hst]; rfl, by rw [hst]; rfl, ?_⟩
  intro k c hk hc
  rw [hst] at hk
  match k with
  | 0 =>
    simp only [List.get?] at hk
    cases hk
    simp [SseChunk.isPingOrMessage] at hc
  | 1 =>
    simp only [List.get?] at hk
    cases hk
    simp [SseChunk.isPingOrMessage] at hc
  | 2 =>
    simp only [List.get?] at hk
    cases hk
    simp [SseChunk.isPingOrMessage] at hc
  | (n + 3) => omega

theorem sse_event_order_witness :
    (rev2Stream "s1" [SseChunk.pingEvent 42]).head? =
      some (SseChunk.endpointEvent "/message?sessionId=s1") ∧ 2 < 3 := by
  have h := sse_event_order "s1" [SseChunk.pingEvent 42]
  exact ⟨h.1, h.2.2 3 (SseChunk.pingEvent 42) (by decide) (by decide)⟩

/-- C4: session ids issued to open streaming connections are pairwise
distinct (the issued ids as a whole are), and after a session is torn
down its id is never matched by any later inbound-message lookup: a POST
addressed to a destroyed session id is rejected, however the trace
continues. -/
theorem session_ids_safe (tr extra : List SessionEvent) (sid : Nat)
    (h : sid ∈ (runManager tr).closed) :
    (runManager tr).issued.Nodup ∧
    (runManager tr).active.Nodup ∧
    lookupSession (runManager (tr ++ extra)) sid = false := by
  have hinv : managerInv (runManager tr) :=
    managerInv_foldl tr initialManager managerInv_init
  have happ : runManager (tr ++ extra) = extra.foldl managerStep (runManager tr) := by
    simp [runManager, List.foldl_append]
  have hinv2 : managerInv (runManager (tr ++ extra)) := by
    rw [happ]
    exact managerInv_foldl extra _ hinv
  have hcl : sid ∈ (runManager (tr ++ extra)).closed := by
    rw [happ]
    exact mem_closed_foldl extra _ sid h
  refine ⟨hinv.1, hinv.2.1, ?_⟩
  have hna : sid ∉ (runManager (tr ++ extra)).active := hinv2.2.2.2.2.2 sid hcl
  simp [lookupSession, hna]

theorem session_ids_safe_witness :
    0 ∈ (runManager [SessionEvent.sseOpen, SessionEvent.abortSignal 0]).closed ∧
    lookupSession
      (runManager ([SessionEvent.sseOpen, SessionEvent.abortSignal 0] ++
        [SessionEvent.sseOpen])) 0 = false := by
  refine ⟨by decide, ?_⟩
  exact (session_ids_safe [SessionEvent.sseOpen, SessionEvent.abortSignal 0]
    [SessionEvent.sseOpen] 0 (by decide)).2.2

/-- C5: teardown stops the keep-alive timer and removes the session entry
from the map, and it is idempotent: running it a second time raises
nothing (the model is a total function; the one call that could throw is
wrapped in try/catch in the source) and leaves the state — the session
map included — exactly as after the first run; after teardown the ping
interval never emits again. -/
theorem teardown_idempotent (s : SseSessionState) (sid : Nat)
    (hn : s.activeMap.Nodup) (hs : s.sessionId = some sid) :
    (teardown s).pingActive = false ∧
    sid ∉ (teardown s).activeMap ∧
    teardown (teardown s) = teardown s ∧
    ∀ now, pingTick (teardown s) now = (teardown s, none) := by
  obtain ⟨p, m, c, si⟩ := s
  simp only at hs hn
  subst hs
  have h1 : teardown ⟨p, m, c, some sid⟩ =
      ⟨false, m.erase sid, errorCtrl c, some sid⟩ := rfl
  have hne : sid ∉ m.erase sid := hn.not_mem_erase
  refine ⟨by rw [h1], by rw [h1]; exact hne, ?_, ?_⟩
  · rw [h1]
    show (⟨false, (m.erase sid).erase sid, errorCtrl (errorCtrl c), some sid⟩ :
      SseSessionState) = ⟨false, m.erase sid, errorCtrl c, some sid⟩
    rw [List.erase_of_not_mem hne]
    cases c <;> rfl
  · intro now
    rw [h1]
    rfl

theorem teardown_idempotent_witness :
    teardown (teardown ⟨true, [5], StreamCtrl.readable, some 5⟩) =
      teardown ⟨true, [5], StreamCtrl.readable, some 5⟩ ∧
    5 ∉ (teardown (⟨true, [5], StreamCtrl.readable, some 5⟩ : SseSessionState)).activeMap := by
  have h := teardown_idempotent ⟨true, [5], StreamCtrl.readable, some 5⟩ 5 (by decide) rfl
  exact ⟨h.2.2.1, h.2.1⟩

/-- C6 counterexample: a POST that supplies a sessionId matching no live
session is NOT always answered 404 — when its body fails to parse as
JSON, the catch answers 500 (the parse precedes the lookup). -/
theorem postMessage_counterexample :
    (postMessage ["live"] { sessionId := some "bogus", body := none } true).status = 500 ∧
    (500 : Nat) ≠ 404 := by
  exact ⟨rfl, by decide⟩

/-- C6 amended: for every POST to the inbound message endpoint — no
`sessionId` gives 400; a supplied `sessionId` with a well-formed JSON
body but no live session gives 404, the session map unmutated; a live
session with a well-formed body whose handling succeeds (or is the
`initialize` special case) gives 200 with the `status: ok`
acknowledgment; a body that fails to parse gives 500. -/
theorem postMessage_statuses (activeMap : List String) (req : PostRequest)
    (handleOk : Bool) :
    (req.sessionId = none →
      (postMessage activeMap req handleOk).status = 400 ∧
      (postMessage activeMap req handleOk).mapAfter = activeMap) ∧
    (∀ sid b, req.sessionId = some sid → req.body = some b →
      sid ∉ activeMap →
      (postMessage activeMap req handleOk).status = 404 ∧
      (postMessage activeMap req handleOk).mapAfter = activeMap) ∧
    (∀ sid b, req.sessionId = some sid → req.body = some b →
      sid ∈ activeMap →
      (isInitialize b = true ∨ handleOk = true) →
      (postMessage activeMap req handleOk).status = 200 ∧
      (postMessage activeMap req handleOk).body = Json.obj [("status", Json.str "ok")] ∧
      (postMessage activeMap req handleOk).mapAfter = activeMap) ∧
    (∀ sid, req.sessionId = some sid → req.body = none →
      (postMessage activeMap req handleOk).status = 500) := by
  obtain ⟨sidOpt, bodyOpt⟩ := req
  refine ⟨?_, ?_, ?_, ?_⟩
  · intro h
    simp only at h
    subst h
    exact ⟨rfl, rfl⟩
  · intro sid b h1 h2 h3
    simp only at h1 h2
    subst h1
    subst h2
    simp [postMessage, h3]
  · intro sid b h1 h2 h3 h4
    simp only at h1 h2
    subst h1
    subst h2
    rcases h4 with hib | hok
    · simp [postMessage, h3, hib]
    · subst hok
      by_cases hib : isInitialize b
      · simp [postMessage, h3, hib]
      · simp [postMessage, h3, hib]
  · intro sid h1 h2
    simp only at h1 h2
    subst h1
    subst h2
    rfl

theorem postMessage_statuses_witness :
    (postMessage ["s1"]
      { sessionId := some "s1"
      , body := some (Json.obj [("method", Json.str "initialize")]) } true).status = 200 ∧
    (postMessage ["s1"] { sessionId := some "bogus2", body := some Json.null } true).status = 404 := by
  refine ⟨?_, ?_⟩
  · exact ((postMessage_statuses ["s1"]
      { sessionId := some "s1", body := some (Json.obj [("method", Json.str "initialize")]) }
      true).2.2.1 "s1" (Json.obj [("method", Json.str "initialize")]) rfl rfl (by decide)
      (Or.inl (by decide))).1
  · exact ((postMessage_statuses ["s1"]
      { sessionId := some "bogus2", body := some Json.null } true).2.1 "bogus2" Json.null
      rfl rfl (by decide)).1

/-- C9: the Express revision keeps one module-level transport shared by
all clients — every `GET /sse` overwrites it, and a `POST /messages` is
delivered to the transport of the most recently opened SSE connection,
whichever client sent it. -/
theorem v1_shared_transport (opens : List Nat) (t sender sender2 : Nat) :
    (v1SseOpen (v1Run opens) t).transport = some t ∧
    v1PostMessages (v1Run (opens ++ [t])) sender = (200, some t) ∧
    v1PostMessages (v1Run (opens ++ [t])) sender =
      v1PostMessages (v1Run (opens ++ [t])) sender2 := by
  have h : v1Run (opens ++ [t]) = { transport := some t } := by
    simp [v1Run, List.foldl_append, v1SseOpen]
  exact ⟨rfl, by rw [h]; rfl, by rw [h]; rfl⟩
